import Mathlib

set_option maxRecDepth 10000

/-
Verification development for the vla_synthesis repository.

Shallow embedding of the two core components:
  * src/planner.py   (SimplePlanner.interpolate, SimplePlanner.plan_grasp)
  * src/recorder.py  (HDF5Recorder.create_episode_group, HDF5Recorder.save_step)

Python floats are modelled as rationals (the concrete constants of the code,
0.1, 0.04, 0.0, are exactly representable, and the affine arithmetic of the
planner is exact field arithmetic).  Numpy arrays are modelled as a shape
together with a flat row-major data buffer, which matches the numpy/h5py
memory model; numpy broadcasting and h5py dataset resizing are embedded
explicitly below.
-/

/-! ## Planner: SimplePlanner.interpolate (planner.py lines 11-31) -/

/-- Numpy elementwise addition of two one-dimensional float arrays, including
numpy broadcasting: equal lengths add elementwise, a length-one operand is
broadcast against the other, and any other combination raises ValueError
(modelled as none). -/
def bcastAdd (xs ys : List ℚ) : Option (List ℚ) :=
  if xs.length = ys.length then some (List.zipWith (· + ·) xs ys)
  else if xs.length = 1 then some (ys.map (fun b => xs.headD 0 + b))
  else if ys.length = 1 then some (xs.map (fun a => a + ys.headD 0))
  else none

/-- The interpolation parameter of planner.py line 28:
t = i / (steps - 1) if steps > 1 else 0. -/
def t_of (steps : ℤ) (i : ℕ) : ℚ :=
  if 1 < steps then (i : ℚ) / ((steps : ℚ) - 1) else 0

/-- One interpolation step, planner.py line 29: q = (1-t)*start_q + t*end_q.
The two scalar multiplications always succeed elementwise; the numpy addition
of the two resulting arrays follows broadcasting rules. -/
def npLerp (start_q end_q : List ℚ) (t : ℚ) : Option (List ℚ) :=
  bcastAdd (start_q.map (fun a => (1 - t) * a)) (end_q.map (fun b => t * b))

/-- The loop of planner.py lines 26-30 over a given list of loop indices,
raising (Except.error) at the first failing numpy addition. -/
def interpGo (start_q end_q : List ℚ) (steps : ℤ) :
    List ℕ → Except String (List (List ℚ))
  | [] => .ok []
  | i :: rest =>
    match npLerp start_q end_q (t_of steps i) with
    | none => .error "operands could not be broadcast together"
    | some q =>
      match interpGo start_q end_q steps rest with
      | .error msg => .error msg
      | .ok qs => .ok (q :: qs)

/-- SimplePlanner.interpolate (planner.py lines 11-31).  The python loop is
for i in range(steps); a zero or negative steps argument gives an empty
range, hence the Int.toNat below. -/
def interpolate (start_q end_q : List ℚ) (steps : ℤ) :
    Except String (List (List ℚ)) :=
  interpGo start_q end_q steps (List.range steps.toNat)

/-- The componentwise affine combination (1-t)*start + t*end of two
equal-length configurations, the value computed by planner.py line 29 in
the non-broadcasting case. -/
def lerpV (start_q end_q : List ℚ) (t : ℚ) : List ℚ :=
  List.zipWith (fun a b => (1 - t) * a + t * b) start_q end_q

/-! ## Planner: SimplePlanner.plan_grasp (planner.py lines 33-141) -/

/-- Python exceptions escaping plan_grasp: the explicit
RuntimeError(f"IK solving failed: {e}") of line 114, and numpy ValueError
raised by array arithmetic outside the try block. -/
inductive PyErr where
  | runtimeError (msg : String)
  | valueError (msg : String)
deriving DecidableEq

/-- The robot capability object as probed by plan_grasp: hasattr(robot, 'get_q')
and hasattr(robot, 'inverse_kinematics') are modelled by Option-valued fields.
get_q is deterministic; inverse_kinematics may raise (Except.error). -/
structure Robot where
  get_q : Option (List ℚ)
  inverse_kinematics : Option (List ℚ → List ℚ → Except String (List ℚ))

/-- Gripper open value, planner.py line 99. -/
def open_val : ℚ := 0.04

/-- Gripper closed value, planner.py line 100. -/
def closed_val : ℚ := 0.0

/-- Fixed gripper-down orientation quaternion, planner.py line 67. -/
def down_quat : List ℚ := [0, 1, 0, 0]

/-- Helper set_gripper of planner.py lines 103-107: overwrite the last two
entries with val if the configuration has at least two entries. -/
def set_gripper (q : List ℚ) (val : ℚ) : List ℚ :=
  if 2 ≤ q.length then q.take (q.length - 2) ++ [val, val] else q

/-- The try block of planner.py lines 70-111: obtain home_q (zeros(9) fallback
when get_q is missing), resolve the three keyframes through solve_ik (the
helper of lines 81-91: call robot.inverse_kinematics when present, otherwise
warn and return a random configuration, modelled by the oracle randu giving
the successive draws of np.random.uniform), and apply the gripper overrides
of lines 109-111.  Any exception raised inside (an inverse_kinematics
failure) escapes as Except.error. -/
def resolveKeyframes (randu : ℕ → List ℚ) (robot : Robot)
    (pre_grasp_pos grasp_pos lift_pos : List ℚ) :
    Except String (List ℚ × List ℚ × List ℚ × List ℚ) :=
  let home_q : List ℚ :=
    match robot.get_q with
    | some q => q
    | none => List.replicate 9 0
  let solve_ik : ℕ → List ℚ → List ℚ → Except String (List ℚ) :=
    fun k pos quat =>
      match robot.inverse_kinematics with
      | some ik => ik pos quat
      | none => .ok (randu k)
  do
    let pre_grasp_q ← solve_ik 0 pre_grasp_pos down_quat
    let grasp_q ← solve_ik 1 grasp_pos down_quat
    let lift_q ← solve_ik 2 lift_pos down_quat
    return (home_q,
            set_gripper pre_grasp_q open_val,
            set_gripper grasp_q open_val,
            set_gripper lift_q closed_val)

/-- SimplePlanner.plan_grasp (planner.py lines 33-141): key poses (pre-grasp
is target + [0,0,0.1], lift equals pre-grasp), keyframe resolution inside the
try block (re-raised as RuntimeError on failure), then four interpolated
segments of 50, 50, 20 and 50 steps concatenated in order. -/
def plan_grasp (randu : ℕ → List ℚ) (robot : Robot) (target_position : List ℚ) :
    Except PyErr (List (List ℚ)) :=
  match bcastAdd target_position [0, 0, 0.1] with
  | none => .error (.valueError "operands could not be broadcast together")
  | some pre_grasp_pos =>
    let grasp_pos := target_position
    let lift_pos := pre_grasp_pos
    match resolveKeyframes randu robot pre_grasp_pos grasp_pos lift_pos with
    | .error e => .error (.runtimeError ("IK solving failed: " ++ e))
    | .ok (home_q, pre_grasp_q, grasp_q, lift_q) =>
      let grasp_q_closed := set_gripper grasp_q closed_val
      match interpolate home_q pre_grasp_q 50 with
      | .error m => .error (.valueError m)
      | .ok traj_home_to_pre =>
        match interpolate pre_grasp_q grasp_q 50 with
        | .error m => .error (.valueError m)
        | .ok traj_pre_to_grasp =>
          match interpolate grasp_q grasp_q_closed 20 with
          | .error m => .error (.valueError m)
          | .ok traj_close_gripper =>
            match interpolate grasp_q_closed lift_q 50 with
            | .error m => .error (.valueError m)
            | .ok traj_grasp_to_lift =>
              .ok (traj_home_to_pre ++ traj_pre_to_grasp ++
                   traj_close_gripper ++ traj_grasp_to_lift)

/-! ## Recorder: numpy/h5py array model

An ndarray is a shape together with a flat row-major buffer of scalars.
All HDF5Recorder datasets are created with unlimited maxshape, so any
Dataset.resize call with the correct rank succeeds, truncating or
zero-padding per dimension exactly as h5py does. -/

/-- A scalar element: float (rational model) or variable-length string. -/
inductive Scalar where
  | f (q : ℚ)
  | s (t : String)
deriving DecidableEq, Inhabited

/-- Element types of the recorder's datasets. -/
inductive DType where
  | uint8
  | float32
  | str
deriving DecidableEq, Inhabited

/-- Flat ndarray: row-major buffer plus shape. -/
structure NDArr where
  shape : List ℕ
  data : List Scalar
deriving Inhabited

/-- Number of elements of a shape. -/
def listProd : List ℕ → ℕ
  | [] => 1
  | n :: rest => n * listProd rest

/-- All multi-indices of a shape in row-major order. -/
def enumIndices : List ℕ → List (List ℕ)
  | [] => [[]]
  | n :: rest => (List.range n).flatMap (fun i => (enumIndices rest).map (i :: ·))

/-- Row-major flat offset of a multi-index. -/
def flatIndex : List ℕ → List ℕ → ℕ
  | _ :: rs, i :: is => i * listProd rs + flatIndex rs is
  | _, _ => 0

/-- Whether a multi-index is inside a shape. -/
def inBounds : List ℕ → List ℕ → Bool
  | [], [] => true
  | n :: rs, i :: is => decide (i < n) && inBounds rs is
  | _, _ => false

/-- Fill value of a dtype (h5py default fill: zero, empty string). -/
def fillOf : DType → Scalar
  | .str => .s ""
  | _ => .f 0

/-- Buffer contents after h5py Dataset.resize: values at multi-indices that
were inside the old shape are kept, everything else is the fill value. -/
def resizeData (oldShape : List ℕ) (old : List Scalar) (newShape : List ℕ)
    (fill : Scalar) : List Scalar :=
  (enumIndices newShape).map (fun ix =>
    if inBounds oldShape ix then old.getD (flatIndex oldShape ix) fill else fill)

/-- Numpy assignment broadcasting test: src broadcasts onto dst when, after
right-aligning the shapes, every src dimension equals the dst dimension or
is one. -/
def broadcastOkB (src dst : List ℕ) : Bool :=
  decide (src.length ≤ dst.length) &&
  (List.zip src (dst.drop (dst.length - src.length))).all
    (fun p => p.1 == p.2 || p.1 == 1)

/-- Source multi-index that a dst multi-index reads from under broadcasting:
leading dst axes are dropped, and axes where the source has extent one are
pinned to zero. -/
def srcIndex (src dst ix : List ℕ) : List ℕ :=
  List.zipWith (fun m i => if m = 1 then 0 else i) src
    (ix.drop (dst.length - src.length))

/-- The flat buffer obtained by broadcasting an ndarray onto shape dst. -/
def broadcastData (x : NDArr) (dst : List ℕ) : List Scalar :=
  (enumIndices dst).map (fun ix =>
    x.data.getD (flatIndex x.shape (srcIndex x.shape dst ix)) (.f 0))

/-- Whether every scalar of a buffer is storable in a dtype (numbers in the
numeric dtypes, strings in the string dtype); h5py raises on a mismatch. -/
def typeOkData (dt : DType) (data : List Scalar) : Bool :=
  data.all fun v =>
    match dt, v with
    | .uint8, .f _ => true
    | .float32, .f _ => true
    | .str, .s _ => true
    | _, _ => false

/-- Numpy cast of a float to uint8: truncate toward zero, wrap modulo 256.
For the string and float32 dtypes stored scalars are kept as given (the
concrete float values of this development are exactly representable in
32-bit floats). -/
def coerceScalar (dt : DType) (v : Scalar) : Scalar :=
  match dt, v with
  | .uint8, .f q => .f (((q.num / (q.den : ℤ)) % 256 : ℤ) : ℚ)
  | _, _ => v

/-- An HDF5 dataset: element type, current shape, flat buffer. -/
structure Dataset where
  dtype : DType
  shape : List ℕ
  data : List Scalar
deriving Inhabited

/-- Dataset.resize of h5py: the new shape must have the same rank (maxshape
is unlimited in every dimension for the recorder's datasets, so no other
check applies); the buffer is truncated/zero-filled per dimension. -/
def Dataset.resize (d : Dataset) (newShape : List ℕ) : Except String Dataset :=
  if newShape.length = d.shape.length then
    .ok ⟨d.dtype, newShape, resizeData d.shape d.data newShape (fillOf d.dtype)⟩
  else
    .error "TypeError: new shape has wrong rank"

/-- Write one row (index i along the first axis): h5py dset[i] = x.  The
value must be dtype-compatible and its shape must broadcast onto the
per-row shape; on failure the dataset is returned unchanged together with
the raised error (the failed assignment mutates nothing). -/
def Dataset.setRow (d : Dataset) (i : ℕ) (x : NDArr) : Dataset × Option String :=
  if typeOkData d.dtype x.data = true then
    if broadcastOkB x.shape d.shape.tail = true then
      let p := listProd d.shape.tail
      let row := (broadcastData x d.shape.tail).map (coerceScalar d.dtype)
      (⟨d.dtype, d.shape, (d.data.take (i * p)) ++ row ++ (d.data.drop ((i + 1) * p))⟩,
       none)
    else (d, some "TypeError: unable to broadcast value onto dataset row")
  else (d, some "TypeError: value has wrong element type for dataset")

/-- The append helper of recorder.py lines 72-95.  Dimensions other than the
first being zero marks the dataset uninitialized: the first write resizes to
(1, *data.shape) and assigns index 0.  Otherwise the dataset is resized one
longer FIRST and the new last row is assigned SECOND, so a failing
assignment leaves the dataset already extended by a zero-filled row. -/
def datasetAppend (d : Dataset) (x : NDArr) : Dataset × Option String :=
  if 1 < d.shape.length ∧ 0 ∈ d.shape.tail then
    match d.resize (1 :: x.shape) with
    | .error e => (d, some e)
    | .ok d1 => d1.setRow 0 x
  else
    match d.shape with
    | [] => (d, some "IndexError: scalar dataset")
    | n :: rest =>
      match d.resize ((n + 1) :: rest) with
      | .error e => (d, some e)
      | .ok d1 => d1.setRow n x

/-- An HDF5 group: named datasets plus group attributes. -/
structure H5Group where
  dsets : List (String × Dataset)
  attrs : List (String × String)
deriving Inhabited

/-- An HDF5 file: named episode groups. -/
def H5File := List (String × H5Group)

/-- First entry with the given key. -/
def assocFind {α : Type} : List (String × α) → String → Option α
  | [], _ => none
  | (k, v) :: rest, n => if k = n then some v else assocFind rest n

/-- Replace the value at an existing key (no-op when the key is absent). -/
def assocSet {α : Type} : List (String × α) → String → α → List (String × α)
  | [], _, _ => []
  | (k, v) :: rest, n, v' =>
    if k = n then (k, v') :: rest else (k, v) :: assocSet rest n v'

/-- Remove every entry with the given key (h5py del). -/
def assocErase {α : Type} (l : List (String × α)) (n : String) :
    List (String × α) :=
  l.filter (fun p => !(p.1 == n))

def findG (f : H5File) (n : String) : Option H5Group := assocFind f n

def setG (f : H5File) (n : String) (g : H5Group) : H5File := assocSet f n g

def hasG (f : H5File) (n : String) : Bool := (findG f n).isSome

def H5Group.findD (g : H5Group) (n : String) : Option Dataset :=
  assocFind g.dsets n

def H5Group.setD (g : H5Group) (n : String) (d : Dataset) : H5Group :=
  ⟨assocSet g.dsets n d, g.attrs⟩

/-- Group name of an episode index (recorder.py line 27). -/
def epName (episode_idx : ℕ) : String := "episode_" ++ toString episode_idx

/-- Group.create_dataset with initial shape (first dimension 0): appends a
named empty dataset. -/
def createDataset (g : H5Group) (name : String) (dt : DType) (shape : List ℕ) :
    H5Group :=
  ⟨g.dsets ++ [(name, ⟨dt, shape, resizeData [] [] shape (fillOf dt)⟩)], g.attrs⟩

/-- The five datasets created by create_episode_group (recorder.py
lines 31-51): observation uint8 (0,0,0,0), action float32 (0,0), reward
float32 (0,), instruction str (0,), state float32 (0,0); a fresh group has
no attributes. -/
def freshEpisodeGroup : H5Group :=
  let grp : H5Group := ⟨[], []⟩
  let grp := createDataset grp "observation" .uint8 [0, 0, 0, 0]
  let grp := createDataset grp "action" .float32 [0, 0]
  let grp := createDataset grp "reward" .float32 [0]
  let grp := createDataset grp "instruction" .str [0]
  let grp := createDataset grp "state" .float32 [0, 0]
  grp

/-- HDF5Recorder.create_episode_group (recorder.py lines 19-51): delete any
existing group of that name, then create the group with its five empty
resizable datasets. -/
def create_episode_group (f : H5File) (episode_idx : ℕ) : H5File :=
  let group_name := epName episode_idx
  let f := if hasG f group_name then assocErase f group_name else f
  f ++ [(group_name, freshEpisodeGroup)]

/-- Append data to one named stream of one group, writing the (possibly
partially) mutated dataset back into the file and surfacing any raised
error. -/
def appendToStream (f : H5File) (gname dname : String) (x : NDArr) :
    H5File × Option String :=
  match findG f gname with
  | none => (f, some "KeyError: no such group")
  | some g =>
    match g.findD dname with
    | none => (f, some "KeyError: no such dataset")
    | some d =>
      let r := datasetAppend d x
      (setG f gname (g.setD dname r.1), r.2)

/-- A python scalar passed to a dataset write (numpy treats it as 0-d). -/
def scalarArr (v : Scalar) : NDArr := ⟨[], [v]⟩

/-- HDF5Recorder.save_step (recorder.py lines 53-113).  Creates the episode
group when missing; appends observation, action, reward, instruction in
that order, each exception propagating immediately (streams already
appended stay appended); then the state logic of lines 102-113: an explicit
state is appended, while an omitted state gets one zero row only when the
state stream is shorter than the observation stream and its row dimension
is already established (positive). -/
def save_step (f0 : H5File) (episode_idx : ℕ) (observation action : NDArr)
    (instruction : String) (reward : ℚ) (state : Option NDArr) :
    H5File × Option String :=
  let group_name := epName episode_idx
  let f1 := if hasG f0 group_name then f0 else create_episode_group f0 episode_idx
  match appendToStream f1 group_name "observation" observation with
  | (f, some e) => (f, some e)
  | (f, none) =>
    match appendToStream f group_name "action" action with
    | (f, some e) => (f, some e)
    | (f, none) =>
      match appendToStream f group_name "reward" (scalarArr (.f reward)) with
      | (f, some e) => (f, some e)
      | (f, none) =>
        match appendToStream f group_name "instruction" (scalarArr (.s instruction)) with
        | (f, some e) => (f, some e)
        | (f, none) =>
          match state with
          | some st => appendToStream f group_name "state" st
          | none =>
            match findG f group_name with
            | none => (f, some "KeyError: no such group")
            | some g =>
              match g.findD "state", g.findD "observation" with
              | some dset, some od =>
                if dset.shape.headD 0 < od.shape.headD 0 then
                  if 0 < dset.shape.tail.headD 0 then
                    match dset.resize ((dset.shape.headD 0 + 1) :: dset.shape.tail) with
                    | .error e => (f, some e)
                    | .ok d1 =>
                      let r := d1.setRow (dset.shape.headD 0)
                        ⟨[dset.shape.tail.headD 0],
                         List.replicate (dset.shape.tail.headD 0) (.f 0)⟩
                      (setG f group_name (g.setD "state" r.1), r.2)
                  else (f, none)
                else (f, none)
              | _, _ => (f, some "KeyError: no such dataset")

/-- The methods defined on the HDF5Recorder class (recorder.py lines 5-113):
the full method set of the class body. -/
def HDF5Recorder_methods : List String :=
  ["__init__", "create_episode_group", "save_step"]

/-- Lookup of one dataset of one episode group of a file. -/
def dsetOf (f : H5File) (gname dname : String) : Option Dataset :=
  (findG f gname).bind (fun grp => grp.findD dname)

/-! ## Concrete instances used by counterexamples and witnesses -/

/-- A 2x2x3 all-zero uint8 image. -/
def obs223 : NDArr := ⟨[2, 2, 3], List.replicate 12 (.f 0)⟩

/-- A 3x2x3 all-zero uint8 image (first axis disagrees with obs223). -/
def obs323 : NDArr := ⟨[3, 2, 3], List.replicate 18 (.f 0)⟩

/-- A 7-dimensional zero action vector. -/
def act7 : NDArr := ⟨[7], List.replicate 7 (.f 0)⟩

/-- The state vector [1.0, 2.0, 3.0] of the spec's section 8 scenario. -/
def st123 : NDArr := ⟨[3], [.f 1, .f 2, .f 3]⟩

/-- File after one successful save_step on episode 0 (establishes
observation (2,2,3) and action (7,)). -/
def c1_file : H5File := (save_step [] 0 obs223 act7 "pick" 1 none).1

/-- The established episode 0 group of c1_file. -/
def c1_group : H5Group := (findG c1_file (epName 0)).getD ⟨[], []⟩

/-- The established observation dataset of c1_file. -/
def c1_obsDset : Dataset := (c1_group.findD "observation").getD ⟨.uint8, [], []⟩

/-- Result of a second save_step whose observation shape (3,2,3) disagrees
with the established (2,2,3). -/
def c1_res : H5File × Option String := save_step c1_file 0 obs323 act7 "pick" 1 none

/-- File after the first step of the spec's section 8 state scenario
(step 0, no state supplied). -/
def c2_file : H5File := (save_step [] 0 obs223 act7 "step" 0 none).1

/-- Result of the second step of the scenario (state=[1.0,2.0,3.0]). -/
def c2_res : H5File × Option String := save_step c2_file 0 obs223 act7 "step" 0 (some st123)

/-- A robot whose get_q returns zeros(9) and whose inverse_kinematics always
returns the fixed configuration ones(9). -/
def c3_robot : Robot :=
  ⟨some (List.replicate 9 0), some (fun _ _ => .ok (List.replicate 9 1))⟩

/-- The trajectory planned for c3_robot toward target [0.5, 0, 0.05]. -/
def c3_T : List (List ℚ) :=
  (plan_grasp (fun _ => []) c3_robot [1/2, 0, 1/20]).toOption.getD []

/-- A robot lacking the inverse_kinematics attribute entirely. -/
def c4_robot : Robot := ⟨some (List.replicate 9 0), none⟩

/-- Oracle for the np.random.uniform draws of the solve_ik fallback. -/
def c4_randu : ℕ → List ℚ := fun _ => List.replicate 9 (1/2)

/-- A robot whose inverse_kinematics capability raises on every call. -/
def c4w_robot : Robot :=
  ⟨some (List.replicate 9 0), some (fun _ _ => .error "no IK solution")⟩

/-- The pre-grasp position computed by plan_grasp for target [0,0,0]. -/
def c4w_pre : List ℚ := (bcastAdd [0, 0, 0] [0, 0, 0.1]).getD []

/-! ## Lemmas: interpolate -/

theorem zipWith_map_both {α β : Type} (f : β → β → β) (g h' : α → β) :
    ∀ (s e : List α), List.zipWith f (s.map g) (e.map h') =
      List.zipWith (fun a b => f (g a) (h' b)) s e
  | [], _ => by simp
  | _ :: _, [] => by simp
  | a :: s, b :: e => by
    simp only [List.map_cons, List.zipWith_cons_cons]
    rw [zipWith_map_both f g h' s e]

theorem bcastAdd_of_length_eq {xs ys : List ℚ} (h : xs.length = ys.length) :
    bcastAdd xs ys = some (List.zipWith (· + ·) xs ys) := by
  simp [bcastAdd, h]

theorem npLerp_of_length_eq {s e : List ℚ} (h : s.length = e.length) (t : ℚ) :
    npLerp s e t = some (lerpV s e t) := by
  rw [npLerp, bcastAdd_of_length_eq (by simpa using h)]
  rw [zipWith_map_both, lerpV]

theorem lerpV_zero : ∀ {s e : List ℚ}, s.length = e.length → lerpV s e 0 = s
  | [], [], _ => rfl
  | [], _ :: _, h => by simp at h
  | _ :: _, [], h => by simp at h
  | a :: s, b :: e, h => by
    simp only [lerpV, List.zipWith_cons_cons]
    rw [show (1 - (0:ℚ)) * a + 0 * b = a by ring]
    have : lerpV s e 0 = s := lerpV_zero (by simpa using h)
    rw [lerpV] at this
    rw [this]

theorem lerpV_one : ∀ {s e : List ℚ}, s.length = e.length → lerpV s e 1 = e
  | [], [], _ => rfl
  | [], _ :: _, h => by simp at h
  | _ :: _, [], h => by simp at h
  | a :: s, b :: e, h => by
    simp only [lerpV, List.zipWith_cons_cons]
    rw [show (1 - (1:ℚ)) * a + 1 * b = b by ring]
    have : lerpV s e 1 = e := lerpV_one (by simpa using h)
    rw [lerpV] at this
    rw [this]

theorem lerpV_same (t : ℚ) : ∀ (s : List ℚ), lerpV s s t = s
  | [] => rfl
  | a :: s => by
    simp only [lerpV, List.zipWith_cons_cons]
    rw [show (1 - t) * a + t * a = a by ring]
    have : lerpV s s t = s := lerpV_same t s
    rw [lerpV] at this
    rw [this]

theorem length_lerpV (s e : List ℚ) (t : ℚ) :
    (lerpV s e t).length = min s.length e.length := by
  simp [lerpV]

theorem drop_lerpV (s e : List ℚ) (t : ℚ) (k : ℕ) :
    (lerpV s e t).drop k = lerpV (s.drop k) (e.drop k) t := by
  simp [lerpV, List.drop_zipWith]

theorem interpGo_ok {s e : List ℚ} (h : s.length = e.length) (steps : ℤ) :
    ∀ is : List ℕ, interpGo s e steps is =
      .ok (is.map fun i => lerpV s e (t_of steps i))
  | [] => rfl
  | i :: rest => by
    rw [interpGo, npLerp_of_length_eq h, interpGo_ok h steps rest, List.map_cons]

theorem interpolate_ok {s e : List ℚ} (h : s.length = e.length) (steps : ℤ) :
    interpolate s e steps =
      .ok ((List.range steps.toNat).map fun i => lerpV s e (t_of steps i)) :=
  interpGo_ok h steps _

theorem getElem?_map_range {α : Type} (n : ℕ) (f : ℕ → α) (i : ℕ) (hi : i < n) :
    ((List.range n).map f)[i]? = some (f i) := by
  rw [List.getElem?_map, List.getElem?_range hi, Option.map_some']

/-- C7: interpolate on equal-dimension configurations: steps = 1 yields
exactly [start]; steps = N > 1 yields exactly N elements, element i being the
componentwise affine combination with t_i = i/(N-1), element 0 being start
exactly and element N-1 being end exactly. -/
theorem C7_interpolate_exact (start_q end_q : List ℚ)
    (h : start_q.length = end_q.length) :
    interpolate start_q end_q 1 = .ok [start_q] ∧
    ∀ N : ℤ, 1 < N →
      ∃ L, interpolate start_q end_q N = .ok L ∧
        L.length = N.toNat ∧
        (∀ i, i < N.toNat →
          L[i]? = some (List.zipWith
            (fun a b => (1 - (i : ℚ) / ((N : ℚ) - 1)) * a + ((i : ℚ) / ((N : ℚ) - 1)) * b)
            start_q end_q)) ∧
        L[0]? = some start_q ∧ L[N.toNat - 1]? = some end_q := by
  constructor
  · rw [interpolate_ok h]
    show Except.ok ((List.range (Int.toNat 1)).map _) = _
    rw [show List.range (Int.toNat 1) = [0] from rfl]
    simp only [List.map_cons, List.map_nil]
    rw [show t_of 1 0 = 0 by rw [t_of]; norm_num]
    rw [lerpV_zero h]
  · intro N hN
    refine ⟨_, interpolate_ok h N, ?_, ?_, ?_, ?_⟩
    · simp
    · intro i hi
      rw [getElem?_map_range _ _ _ hi]
      rw [show t_of N i = (i : ℚ) / ((N : ℚ) - 1) by rw [t_of, if_pos hN]]
      rfl
    · have h0 : 0 < N.toNat := by omega
      rw [getElem?_map_range _ _ _ h0]
      rw [show t_of N 0 = 0 by rw [t_of, if_pos hN]; norm_num]
      rw [lerpV_zero h]
    · have hlast : N.toNat - 1 < N.toNat := by omega
      rw [getElem?_map_range _ _ _ hlast]
      have hNz : ((N : ℚ) - 1) ≠ 0 := by
        have : (1 : ℚ) < (N : ℚ) := by exact_mod_cast hN
        linarith
      have hcast : ((N.toNat - 1 : ℕ) : ℚ) = (N : ℚ) - 1 := by
        have h1 : (1:ℕ) ≤ N.toNat := by omega
        push_cast [Nat.cast_sub h1]
        have : ((N.toNat : ℤ) : ℚ) = (N : ℚ) := by
          rw [Int.toNat_of_nonneg (by omega : (0:ℤ) ≤ N)]
        push_cast at this
        rw [this]
      rw [show t_of N (N.toNat - 1) = 1 by
        rw [t_of, if_pos hN, hcast, div_self hNz]]
      rw [lerpV_one h]

/-- Witness for C7 at start = [0,0], end = [1,2]. -/
theorem C7_interpolate_exact_witness :
    ([0, 0] : List ℚ).length = ([1, 2] : List ℚ).length ∧
    interpolate [0, 0] [1, 2] 1 = .ok [[0, 0]] :=
  ⟨rfl, (C7_interpolate_exact [0, 0] [1, 2] rfl).1⟩

/-- C8 counterexample: start = [0.0] and end = [1.0, 2.0, 3.0] have different
lengths and steps = 2 >= 1, yet interpolate does NOT fail: numpy broadcasting
of the length-one operand silently succeeds and a 2-element trajectory is
returned. -/
theorem C8_counterexample :
    (interpolate [0] [1, 2, 3] 2).toOption.map List.length = some 2 := rfl

/-- C8 amended: interpolate fails (with the numpy broadcast ValueError; the
code has no dedicated DimensionMismatchError class) when the two
configurations have different lengths, NEITHER of which is one, and at least
one step is requested; a length-one endpoint is silently broadcast instead. -/
theorem C8_amended_mismatch_fails (start_q end_q : List ℚ) (steps : ℤ)
    (h1 : start_q.length ≠ end_q.length) (h2 : start_q.length ≠ 1)
    (h3 : end_q.length ≠ 1) (h4 : 1 ≤ steps) :
    interpolate start_q end_q steps =
      .error "operands could not be broadcast together" := by
  obtain ⟨m, hm⟩ : ∃ m, steps.toNat = m + 1 := ⟨steps.toNat - 1, by omega⟩
  rw [interpolate, hm, List.range_succ_eq_map]
  have hnone : npLerp start_q end_q (t_of steps 0) = none := by
    simp [npLerp, bcastAdd, h1, h2, h3]
  rw [interpGo, hnone]

/-- Witness for the amended C8 at start = [0,0], end = [1,2,3], steps = 2. -/
theorem C8_amended_mismatch_fails_witness :
    (([0, 0] : List ℚ).length ≠ ([1, 2, 3] : List ℚ).length ∧
     ([0, 0] : List ℚ).length ≠ 1 ∧ ([1, 2, 3] : List ℚ).length ≠ 1 ∧
     (1 : ℤ) ≤ 2) ∧
    interpolate [0, 0] [1, 2, 3] 2 =
      .error "operands could not be broadcast together" :=
  ⟨⟨by decide, by decide, by decide, by decide⟩,
   C8_amended_mismatch_fails [0, 0] [1, 2, 3] 2
     (by decide) (by decide) (by decide) (by decide)⟩

/-- C9: a zero or negative steps argument makes the python loop body run
zero times, so interpolate returns the empty list and raises nothing. -/
theorem C9_nonpositive_steps (start_q end_q : List ℚ) (steps : ℤ)
    (h : steps ≤ 0) : interpolate start_q end_q steps = .ok [] := by
  rw [interpolate, Int.toNat_of_nonpos h]
  rfl

/-- Witness for C9 at steps = -3 with endpoints of different lengths. -/
theorem C9_nonpositive_steps_witness :
    ((-3 : ℤ) ≤ 0) ∧ interpolate [0] [1, 2] (-3) = .ok [] :=
  ⟨by decide, C9_nonpositive_steps [0] [1, 2] (-3) (by decide)⟩

/-! ## Lemmas: plan_grasp -/

theorem set_gripper_length {q : List ℚ} (h : 2 ≤ q.length) (v : ℚ) :
    (set_gripper q v).length = q.length := by
  rw [set_gripper, if_pos h]
  simp only [List.length_append, List.length_take, List.length_cons,
    List.length_nil]
  omega

theorem drop_append_len {α : Type} {l1 : List α} (l2 : List α) {n : ℕ}
    (h : l1.length = n) : (l1 ++ l2).drop n = l2 := by
  subst h
  exact List.drop_left l1 l2

theorem take_append_len {α : Type} {l1 : List α} (l2 : List α) {n : ℕ}
    (h : l1.length = n) : (l1 ++ l2).take n = l1 := by
  subst h
  exact List.take_left l1 l2

theorem set_gripper_drop7 {q : List ℚ} (h : q.length = 9) (v : ℚ) :
    (set_gripper q v).drop 7 = [v, v] := by
  rw [set_gripper, if_pos (by omega), h]
  exact drop_append_len [v, v] (by rw [List.length_take]; omega)

theorem set_gripper_set_gripper {q : List ℚ} (h : 2 ≤ q.length) (v w : ℚ) :
    set_gripper (set_gripper q v) w = set_gripper q w := by
  have e1 : set_gripper q v = q.take (q.length - 2) ++ [v, v] := by
    rw [set_gripper, if_pos h]
  have e2 : set_gripper q w = q.take (q.length - 2) ++ [w, w] := by
    rw [set_gripper, if_pos h]
  have hlv : (set_gripper q v).length = q.length := set_gripper_length h v
  rw [e2, set_gripper, if_pos (by omega : 2 ≤ (set_gripper q v).length), hlv, e1]
  rw [take_append_len [v, v] (by rw [List.length_take]; omega)]

theorem resolveKeyframes_fixed {randu : ℕ → List ℚ} {robot : Robot}
    {h c : List ℚ} {ik : List ℚ → List ℚ → Except String (List ℚ)}
    (hq : robot.get_q = some h) (hik : robot.inverse_kinematics = some ik)
    (hfix : ∀ p q, ik p q = .ok c) (pre grasp lift : List ℚ) :
    resolveKeyframes randu robot pre grasp lift =
      .ok (h, set_gripper c open_val, set_gripper c open_val,
           set_gripper c closed_val) := by
  rw [resolveKeyframes]
  simp [hq, hik, hfix, Bind.bind, Except.bind, pure, Except.pure]

/-- C4 counterexample: on a robot whose inverse_kinematics capability is
absent (unavailable), plan_grasp does NOT fail with PlanningError: the
solve_ik helper fabricates a random substitute configuration (the oracle
draws) and a full 170-step trajectory is returned. -/
theorem C4_counterexample :
    (plan_grasp c4_randu c4_robot [1/2, 0, 1/20]).toOption.map List.length =
      some 170 := rfl

/-- C4 amended: when the keyframe-resolution try block raises (in particular
when the present inverse_kinematics capability fails on a keyframe),
plan_grasp fails with RuntimeError "IK solving failed: ..." (the spec's
PlanningError) and no partial trajectory is returned; an ABSENT capability,
however, is silently substituted by a random configuration. -/
theorem C4_amended_ik_failure (randu : ℕ → List ℚ) (robot : Robot)
    (target_position pre_grasp_pos : List ℚ) (msg : String)
    (hpre : bcastAdd target_position [0, 0, 0.1] = some pre_grasp_pos)
    (hfail : resolveKeyframes randu robot pre_grasp_pos target_position
        pre_grasp_pos = .error msg) :
    plan_grasp randu robot target_position =
      .error (.runtimeError ("IK solving failed: " ++ msg)) := by
  rw [plan_grasp, hpre]
  dsimp only
  rw [hfail]

/-- Witness for the amended C4: a robot whose inverse_kinematics raises on
every call makes plan_grasp fail with the RuntimeError. -/
theorem C4_amended_ik_failure_witness :
    (bcastAdd [0, 0, 0] [0, 0, 0.1] = some c4w_pre ∧
     resolveKeyframes c4_randu c4w_robot c4w_pre [0, 0, 0] c4w_pre =
       .error "no IK solution") ∧
    plan_grasp c4_randu c4w_robot [0, 0, 0] =
      .error (.runtimeError ("IK solving failed: " ++ "no IK solution")) :=
  ⟨⟨rfl, rfl⟩,
   C4_amended_ik_failure c4_randu c4w_robot [0, 0, 0] c4w_pre "no IK solution"
     rfl rfl⟩

theorem getElem?_append_left_len {α : Type} {l1 l2 : List α} {m i : ℕ}
    (hm : l1.length = m) (hi : i < m) : (l1 ++ l2)[i]? = l1[i]? := by
  rw [List.getElem?_append]
  rw [if_pos (show i < l1.length by omega)]

theorem getElem?_append_right_len {α : Type} {l1 l2 : List α} {m i : ℕ}
    (hm : l1.length = m) (hi : m ≤ i) : (l1 ++ l2)[i]? = l2[i - m]? := by
  rw [List.getElem?_append_right (by omega : l1.length ≤ i), hm]

/-- Central computation for C3: on any robot whose get_q returns a fixed
9-dimensional configuration and whose inverse_kinematics deterministically
returns a fixed 9-dimensional configuration, plan_grasp succeeds with a
170-element trajectory whose segment structure pins down the boundary
duplication and the gripper channels. -/
theorem plan_grasp_fixed {randu : ℕ → List ℚ} {robot : Robot}
    {h c : List ℚ} {ik : List ℚ → List ℚ → Except String (List ℚ)}
    {target : List ℚ}
    (hq : robot.get_q = some h) (hlen : h.length = 9)
    (hik : robot.inverse_kinematics = some ik)
    (hfix : ∀ p q, ik p q = .ok c) (hclen : c.length = 9)
    (ht : target.length = 3) :
    ∃ T, plan_grasp randu robot target = .ok T ∧
      T.length = 170 ∧
      T[49]? = some (set_gripper c open_val) ∧
      T[50]? = some (set_gripper c open_val) ∧
      (∀ i, 49 ≤ i → i ≤ 100 →
        T[i]?.map (fun q => q.drop 7) = some [open_val, open_val]) ∧
      (∀ i, 119 ≤ i → i ≤ 169 →
        T[i]?.map (fun q => q.drop 7) = some [closed_val, closed_val]) := by
  have h2c : 2 ≤ c.length := by omega
  have hlA : (set_gripper c open_val).length = 9 := by
    rw [set_gripper_length h2c, hclen]
  have hlC : (set_gripper c closed_val).length = 9 := by
    rw [set_gripper_length h2c, hclen]
  have hCC : set_gripper (set_gripper c open_val) closed_val =
      set_gripper c closed_val := set_gripper_set_gripper h2c _ _
  have hhA : h.length = (set_gripper c open_val).length := by rw [hlen, hlA]
  have hAC : (set_gripper c open_val).length = (set_gripper c closed_val).length := by
    rw [hlA, hlC]
  have i1 := interpolate_ok hhA 50
  have i2 := interpolate_ok (rfl : (set_gripper c open_val).length =
    (set_gripper c open_val).length) 50
  have i3 := interpolate_ok hAC 20
  have i4 := interpolate_ok (rfl : (set_gripper c closed_val).length =
    (set_gripper c closed_val).length) 50
  have hplan : plan_grasp randu robot target = .ok (
      ((List.range (Int.toNat 50)).map fun i =>
        lerpV h (set_gripper c open_val) (t_of 50 i)) ++
      (((List.range (Int.toNat 50)).map fun i =>
        lerpV (set_gripper c open_val) (set_gripper c open_val) (t_of 50 i)) ++
       (((List.range (Int.toNat 20)).map fun i =>
         lerpV (set_gripper c open_val) (set_gripper c closed_val) (t_of 20 i)) ++
        ((List.range (Int.toNat 50)).map fun i =>
          lerpV (set_gripper c closed_val) (set_gripper c closed_val) (t_of 50 i))))) := by
    rw [plan_grasp, bcastAdd_of_length_eq (by rw [ht]; rfl)]
    dsimp only
    rw [resolveKeyframes_fixed hq hik hfix]
    dsimp only
    rw [hCC, i1, i2, i3, i4]
    dsimp only
    rw [List.append_assoc, List.append_assoc]
  have len1 : (((List.range (Int.toNat 50)).map fun i =>
      lerpV h (set_gripper c open_val) (t_of 50 i))).length = 50 := by simp
  have len2 : (((List.range (Int.toNat 50)).map fun i =>
      lerpV (set_gripper c open_val) (set_gripper c open_val) (t_of 50 i))).length = 50 := by
    simp
  have len3 : (((List.range (Int.toNat 20)).map fun i =>
      lerpV (set_gripper c open_val) (set_gripper c closed_val) (t_of 20 i))).length = 20 := by
    simp
  have len4 : (((List.range (Int.toNat 50)).map fun i =>
      lerpV (set_gripper c closed_val) (set_gripper c closed_val) (t_of 50 i))).length = 50 := by
    simp
  have t50_49 : t_of 50 49 = 1 := by
    rw [t_of, if_pos (by norm_num)]
    norm_num
  have t20_0 : t_of 20 0 = 0 := by
    rw [t_of, if_pos (by norm_num)]
    norm_num
  have t20_19 : t_of 20 19 = 1 := by
    rw [t_of, if_pos (by norm_num)]
    norm_num
  refine ⟨_, hplan, ?_, ?_, ?_, ?_, ?_⟩
  · simp
  · rw [getElem?_append_left_len len1 (by norm_num),
        getElem?_map_range _ _ _ (show 49 < Int.toNat 50 by norm_num),
        t50_49, lerpV_one hhA]
  · rw [getElem?_append_right_len len1 (by norm_num),
        getElem?_append_left_len len2 (by norm_num)]
    rw [show (50 - 50 : ℕ) = 0 from rfl,
        getElem?_map_range _ _ _ (show 0 < Int.toNat 50 by norm_num),
        lerpV_same]
  · intro i h49 h100
    by_cases hc1 : i ≤ 49
    · have : i = 49 := by omega
      subst this
      rw [getElem?_append_left_len len1 (by norm_num),
          getElem?_map_range _ _ _ (show 49 < Int.toNat 50 by norm_num),
          t50_49, lerpV_one hhA, Option.map_some', set_gripper_drop7 hclen]
    · by_cases hc2 : i ≤ 99
      · rw [getElem?_append_right_len len1 (by omega),
            getElem?_append_left_len len2 (by omega),
            getElem?_map_range _ _ _ (show i - 50 < Int.toNat 50 by omega),
            lerpV_same, Option.map_some', set_gripper_drop7 hclen]
      · have : i = 100 := by omega
        subst this
        rw [getElem?_append_right_len len1 (by norm_num),
            getElem?_append_right_len len2 (by norm_num),
            getElem?_append_left_len len3 (by norm_num)]
        rw [show (100 - 50 - 50 : ℕ) = 0 from rfl,
            getElem?_map_range _ _ _ (show 0 < Int.toNat 20 by norm_num),
            t20_0, lerpV_zero hAC, Option.map_some', set_gripper_drop7 hclen]
  · intro i h119 h169
    by_cases hc1 : i ≤ 119
    · have : i = 119 := by omega
      subst this
      rw [getElem?_append_right_len len1 (by norm_num),
          getElem?_append_right_len len2 (by norm_num),
          getElem?_append_left_len len3 (by norm_num)]
      rw [show (119 - 50 - 50 : ℕ) = 19 from rfl,
          getElem?_map_range _ _ _ (show 19 < Int.toNat 20 by norm_num),
          t20_19, lerpV_one hAC, Option.map_some', set_gripper_drop7 hclen]
    · rw [getElem?_append_right_len len1 (by omega),
          getElem?_append_right_len len2 (by omega),
          getElem?_append_right_len len3 (by omega),
          getElem?_map_range _ _ _ (show i - 50 - 50 - 20 < Int.toNat 50 by omega),
          lerpV_same, Option.map_some', set_gripper_drop7 hclen]

/-- C3 counterexample: with get_q fixed at zeros(9) and inverse_kinematics
fixed at ones(9), the trajectory has 170 configurations but the gripper
channels at index 119 (inside the claimed open range 0-119) equal the CLOSED
constant, not the open constant: index 119 is the final element of the
gripper-closing segment. -/
theorem C3_counterexample :
    c3_T.length = 170 ∧
    c3_T[119]?.map (fun q => q.drop 7) = some [closed_val, closed_val] ∧
    closed_val ≠ open_val := by
  obtain ⟨T, hT, h170, h49, h50, hopen, hclosed⟩ :=
    plan_grasp_fixed
      (show c3_robot.get_q = some (List.replicate 9 0) from rfl)
      (by simp)
      (show c3_robot.inverse_kinematics =
        some (fun _ _ => .ok (List.replicate 9 1)) from rfl)
      (fun _ _ => rfl) (by simp)
      (show ([1/2, 0, 1/20] : List ℚ).length = 3 by simp)
  have hc3T : c3_T = T := by
    unfold c3_T
    rw [hT]
    rfl
  refine ⟨by rw [hc3T]; exact h170, by rw [hc3T]; exact hclosed 119 (by norm_num) (by norm_num), ?_⟩
  rw [closed_val, open_val]
  norm_num

/-- C3 amended: for a robot with fixed 9-dimensional get_q and fixed
9-dimensional deterministic inverse_kinematics, plan_grasp yields exactly
170 configurations; indices 49 and 50 are numerically equal; the gripper
channels (last two entries) equal the open constant for indices 49-100 and
the closed constant for indices 119-169 (indices 0-48 interpolate the home
gripper values toward open, and indices 101-118 are the open-to-closed
transition of the 20-step closing segment, so the claimed ranges 0-119 open
and 120-169 closed do not hold). -/
theorem C3_amended_trajectory (randu : ℕ → List ℚ) (robot : Robot)
    (h c target : List ℚ) (ik : List ℚ → List ℚ → Except String (List ℚ))
    (hq : robot.get_q = some h) (hlen : h.length = 9)
    (hik : robot.inverse_kinematics = some ik)
    (hfix : ∀ p q, ik p q = .ok c) (hclen : c.length = 9)
    (ht : target.length = 3) :
    ∃ T, plan_grasp randu robot target = .ok T ∧
      T.length = 170 ∧ T[49]? = T[50]? ∧ T[49]?.isSome = true ∧
      (∀ i, 49 ≤ i → i ≤ 100 →
        T[i]?.map (fun q => q.drop 7) = some [open_val, open_val]) ∧
      (∀ i, 119 ≤ i → i ≤ 169 →
        T[i]?.map (fun q => q.drop 7) = some [closed_val, closed_val]) := by
  obtain ⟨T, hT, h170, h49, h50, hopen, hclosed⟩ :=
    plan_grasp_fixed hq hlen hik hfix hclen ht
  exact ⟨T, hT, h170, by rw [h49, h50], by rw [h49]; rfl, hopen, hclosed⟩

/-- Witness for the amended C3 at the concrete fixed robot c3_robot. -/
theorem C3_amended_trajectory_witness :
    (c3_robot.get_q = some (List.replicate 9 0) ∧
     (List.replicate 9 (0:ℚ)).length = 9 ∧
     c3_robot.inverse_kinematics =
       some (fun _ _ => .ok (List.replicate 9 1)) ∧
     (∀ p q : List ℚ, (fun (_ _ : List ℚ) =>
        (Except.ok (List.replicate 9 (1:ℚ)) : Except String (List ℚ))) p q =
        .ok (List.replicate 9 1)) ∧
     (List.replicate 9 (1:ℚ)).length = 9 ∧
     ([1/2, 0, 1/20] : List ℚ).length = 3) ∧
    (∃ T, plan_grasp (fun _ => []) c3_robot [1/2, 0, 1/20] = .ok T ∧
      T.length = 170 ∧ T[49]? = T[50]? ∧ T[49]?.isSome = true ∧
      (∀ i, 49 ≤ i → i ≤ 100 →
        T[i]?.map (fun q => q.drop 7) = some [open_val, open_val]) ∧
      (∀ i, 119 ≤ i → i ≤ 169 →
        T[i]?.map (fun q => q.drop 7) = some [closed_val, closed_val])) :=
  ⟨⟨rfl, by simp, rfl, fun _ _ => rfl, by simp, by simp⟩,
   C3_amended_trajectory (fun _ => []) c3_robot (List.replicate 9 0)
     (List.replicate 9 1) [1/2, 0, 1/20]
     (fun _ _ => .ok (List.replicate 9 1))
     rfl (by simp) rfl (fun _ _ => rfl) (by simp) (by simp)⟩

/-! ## Lemmas: association lists and the episode store -/

theorem assocFind_append_right {α : Type} {l : List (String × α)} {n : String}
    (h : assocFind l n = none) (l' : List (String × α)) :
    assocFind (l ++ l') n = assocFind l' n := by
  induction l with
  | nil => rfl
  | cons p rest ih =>
    obtain ⟨k, v⟩ := p
    by_cases hk : k = n
    · rw [assocFind, if_pos hk] at h
      exact absurd h (by simp)
    · rw [assocFind, if_neg hk] at h
      rw [List.cons_append, assocFind, if_neg hk]
      exact ih h

theorem assocFind_erase_self {α : Type} (l : List (String × α)) (n : String) :
    assocFind (assocErase l n) n = none := by
  induction l with
  | nil => rfl
  | cons p rest ih =>
    obtain ⟨k, v⟩ := p
    by_cases hk : k = n
    · rw [assocErase, List.filter_cons]
      simp only [hk, beq_self_eq_true, Bool.not_true, if_neg]
      exact ih
    · rw [assocErase, List.filter_cons]
      have : ((k, v).1 == n) = false := by simpa using hk
      simp only [this, Bool.not_false, if_pos]
      rw [assocFind, if_neg hk]
      exact ih

theorem assocErase_of_find_none {α : Type} {l : List (String × α)} {n : String}
    (h : assocFind l n = none) : assocErase l n = l := by
  induction l with
  | nil => rfl
  | cons p rest ih =>
    obtain ⟨k, v⟩ := p
    by_cases hk : k = n
    · rw [assocFind, if_pos hk] at h
      exact absurd h (by simp)
    · rw [assocFind, if_neg hk] at h
      rw [assocErase, List.filter_cons]
      have : ((k, v).1 == n) = false := by simpa using hk
      simp only [this, Bool.not_false, if_pos]
      rw [show List.filter (fun p => !(p.1 == n)) rest = assocErase rest n from rfl,
          ih h]

theorem assocFind_set_self {α : Type} {l : List (String × α)} {n : String}
    (v : α) (h : (assocFind l n).isSome = true) :
    assocFind (assocSet l n v) n = some v := by
  induction l with
  | nil => simp [assocFind] at h
  | cons p rest ih =>
    obtain ⟨k, w⟩ := p
    by_cases hk : k = n
    · rw [assocSet, if_pos hk, assocFind, if_pos hk]
    · rw [assocFind, if_neg hk] at h
      rw [assocSet, if_neg hk, assocFind, if_neg hk]
      exact ih h

theorem assocFind_set_ne {α : Type} (l : List (String × α)) {m n : String}
    (v : α) (h : m ≠ n) : assocFind (assocSet l n v) m = assocFind l m := by
  induction l with
  | nil => rfl
  | cons p rest ih =>
    obtain ⟨k, w⟩ := p
    by_cases hk : k = n
    · rw [assocSet, if_pos hk, assocFind, assocFind]
      have : ¬ k = m := by rw [hk]; exact fun he => h he.symm
      rw [if_neg this, if_neg this]
    · rw [assocSet, if_neg hk, assocFind, assocFind]
      by_cases hm : k = m
      · rw [if_pos hm, if_pos hm]
      · rw [if_neg hm, if_neg hm]
        exact ih

theorem findG_create_self (f : H5File) (i : ℕ) :
    findG (create_episode_group f i) (epName i) = some freshEpisodeGroup := by
  rw [create_episode_group]
  by_cases hg : hasG f (epName i)
  · rw [if_pos hg, findG,
        assocFind_append_right (assocFind_erase_self f (epName i))]
    rw [assocFind, if_pos rfl]
  · rw [if_neg hg]
    have hnone : assocFind f (epName i) = none := by
      rw [hasG] at hg
      exact Option.not_isSome_iff_eq_none.mp hg
    rw [findG, assocFind_append_right hnone]
    rw [assocFind, if_pos rfl]

theorem create_create (f : H5File) (i : ℕ) :
    create_episode_group (create_episode_group f i) i =
      create_episode_group f i := by
  have hfind := findG_create_self f i
  conv =>
    lhs
    rw [create_episode_group]
  rw [if_pos (show hasG (create_episode_group f i) (epName i) by
    rw [hasG, hfind]; rfl)]
  conv =>
    lhs
    rw [create_episode_group]
  rw [assocErase, List.filter_append]
  have h1 : List.filter (fun p => !(p.1 == epName i))
      [(epName i, freshEpisodeGroup)] = [] := by
    simp [List.filter_cons]
  rw [h1, List.append_nil]
  by_cases hg : hasG f (epName i)
  · rw [if_pos hg]
    rw [show List.filter (fun p => !(p.1 == epName i)) (assocErase f (epName i)) =
          assocErase (assocErase f (epName i)) (epName i) from rfl,
        assocErase_of_find_none (assocFind_erase_self f (epName i))]
    rw [create_episode_group]
    rw [if_pos hg]
  · rw [if_neg hg]
    have hnone : assocFind f (epName i) = none := by
      rw [hasG] at hg
      exact Option.not_isSome_iff_eq_none.mp hg
    rw [show List.filter (fun p => !(p.1 == epName i)) f =
          assocErase f (epName i) from rfl,
        assocErase_of_find_none hnone]
    rw [create_episode_group]
    rw [if_neg hg]

/-- C2, evaluated at the failing input (the literal scenario of the spec's
section 8 and of tests/test_recorder.py test_state_late_arrival): after
step 0 without state and step 1 with state=[1.0,2.0,3.0], the code leaves
the state stream with shape [1,3] and single row [1.0,2.0,3.0] - the
late-arriving state lands at row 0 and NO zero row is backfilled, while the
observation stream already has 2 rows.  The claimed final shape [2,3] with
zero row 0 does not hold. -/
theorem C2_state_scenario_eval :
    c2_res.2 = none ∧
    (dsetOf c2_res.1 (epName 0) "state").map Dataset.shape = some [1, 3] ∧
    (dsetOf c2_res.1 (epName 0) "state").map Dataset.data =
      some [.f 1, .f 2, .f 3] ∧
    (dsetOf c2_res.1 (epName 0) "observation").map Dataset.shape =
      some [2, 2, 2, 3] :=
  ⟨rfl, rfl, rfl, rfl⟩

/-- C5, evaluated against the class body: HDF5Recorder defines no close
method at all, although main_generate.py line 124 and the recorder tests
call recorder.close(); any such call raises AttributeError. -/
theorem C5_close_method_missing : "close" ∉ HDF5Recorder_methods := by
  decide

/-- C6: create_episode_group is an idempotent destructive reset - calling it
twice equals calling it once, the resulting episode group is the fresh group
whose five datasets all have first dimension 0 and which carries no
attributes, and no error is possible on either path (the operation is
total). -/
theorem C6_create_episode_idempotent (f : H5File) (episode_idx : ℕ) :
    create_episode_group (create_episode_group f episode_idx) episode_idx =
      create_episode_group f episode_idx ∧
    findG (create_episode_group f episode_idx) (epName episode_idx) =
      some freshEpisodeGroup ∧
    (freshEpisodeGroup.dsets.all fun p => p.2.shape.headD 1 == 0) = true ∧
    freshEpisodeGroup.attrs = [] :=
  ⟨create_create f episode_idx, findG_create_self f episode_idx, rfl, rfl⟩

/-- C10: after every create_episode_group call the episode group holds
exactly the five datasets observation, action, reward, instruction, state
(state created eagerly), every one with first dimension 0. -/
theorem C10_fresh_episode_layout (f : H5File) (episode_idx : ℕ) :
    ∃ g, findG (create_episode_group f episode_idx) (epName episode_idx) =
        some g ∧
      g.dsets.map Prod.fst =
        ["observation", "action", "reward", "instruction", "state"] ∧
      (g.dsets.all fun p => p.2.shape.headD 1 == 0) = true ∧
      (g.findD "state").map Dataset.shape = some [0, 0] :=
  ⟨freshEpisodeGroup, findG_create_self f episode_idx, rfl, rfl, rfl⟩

/-- C1 counterexample: with observation established at (2,2,3) (stream
length 1), a second save_step with a (3,2,3) observation raises, but the
observation stream does NOT stay at length 1: the dataset was resized to
length 2 before the failing assignment, so the episode is modified by the
failed call. -/
theorem C1_counterexample :
    (dsetOf c1_file (epName 0) "observation").map Dataset.shape =
      some [1, 2, 2, 3] ∧
    c1_res.2.isSome = true ∧
    (dsetOf c1_res.1 (epName 0) "observation").map Dataset.shape =
      some [2, 2, 2, 3] :=
  ⟨rfl, rfl, rfl⟩


/-- C1 amended: on an episode whose observation stream is established with
per-row shape r, a save_step whose observation cannot be broadcast onto r
raises an error from the storage layer (there is no dedicated
ShapeMismatchError and no pre-validation), and the episode is NOT left
unmodified: the observation dataset has already been resized to length n+1
(the new row holding fill values) when the assignment fails, while the
action, reward, instruction and state datasets of the episode are untouched
by this first failing append. -/
theorem C1_amended_mismatch_partial_write (f : H5File) (i : ℕ) (g : H5Group)
    (d : Dataset) (observation action : NDArr) (instruction : String)
    (reward : ℚ) (state : Option NDArr) (n : ℕ) (r : List ℕ)
    (hg : findG f (epName i) = some g)
    (hd : g.findD "observation" = some d)
    (hsh : d.shape = n :: r)
    (hz : 0 ∉ r)
    (hty : typeOkData d.dtype observation.data = true)
    (hbc : broadcastOkB observation.shape r = false) :
    ∃ msg d',
      save_step f i observation action instruction reward state =
        (setG f (epName i) (g.setD "observation" d'), some msg) ∧
      d'.shape = (n + 1) :: r ∧
      findG (setG f (epName i) (g.setD "observation" d')) (epName i) =
        some (g.setD "observation" d') ∧
      (g.setD "observation" d').findD "observation" = some d' ∧
      (g.setD "observation" d').findD "action" = g.findD "action" ∧
      (g.setD "observation" d').findD "reward" = g.findD "reward" ∧
      (g.setD "observation" d').findD "instruction" = g.findD "instruction" ∧
      (g.setD "observation" d').findD "state" = g.findD "state" := by
  have hun : ¬ (1 < d.shape.length ∧ 0 ∈ d.shape.tail) := by
    rw [hsh]
    rintro ⟨-, hmem⟩
    exact hz (by simpa using hmem)
  have hres : d.resize ((n + 1) :: r) =
      .ok ⟨d.dtype, (n + 1) :: r,
           resizeData d.shape d.data ((n + 1) :: r) (fillOf d.dtype)⟩ := by
    rw [Dataset.resize, if_pos (by simp [hsh])]
  have hrow : Dataset.setRow
      ⟨d.dtype, (n + 1) :: r,
       resizeData d.shape d.data ((n + 1) :: r) (fillOf d.dtype)⟩ n observation =
      (⟨d.dtype, (n + 1) :: r,
        resizeData d.shape d.data ((n + 1) :: r) (fillOf d.dtype)⟩,
       some "TypeError: unable to broadcast value onto dataset row") := by
    rw [Dataset.setRow]
    dsimp only [List.tail_cons]
    rw [if_pos hty]
    rw [if_neg (show ¬ broadcastOkB observation.shape r = true by
      rw [hbc]; simp)]
  have happ : datasetAppend d observation =
      (⟨d.dtype, (n + 1) :: r,
        resizeData d.shape d.data ((n + 1) :: r) (fillOf d.dtype)⟩,
       some "TypeError: unable to broadcast value onto dataset row") := by
    rw [datasetAppend, if_neg hun]
    split
    · next heq =>
      rw [heq] at hsh
      exact absurd hsh (by simp)
    · next n' rest heq =>
      rw [hsh] at heq
      injection heq with h1 h2
      subst h1
      subst h2
      rw [hres]
      exact hrow
  have hstream : appendToStream f (epName i) "observation" observation =
      (setG f (epName i) (g.setD "observation"
        ⟨d.dtype, (n + 1) :: r,
         resizeData d.shape d.data ((n + 1) :: r) (fillOf d.dtype)⟩),
       some "TypeError: unable to broadcast value onto dataset row") := by
    rw [appendToStream, hg]
    dsimp only
    rw [hd]
    dsimp only
    rw [happ]
  refine ⟨"TypeError: unable to broadcast value onto dataset row",
    ⟨d.dtype, (n + 1) :: r,
     resizeData d.shape d.data ((n + 1) :: r) (fillOf d.dtype)⟩,
    ?_, rfl, ?_, ?_, ?_, ?_, ?_, ?_⟩
  · rw [save_step]
    rw [if_pos (show hasG f (epName i) = true by rw [hasG, hg]; rfl)]
    rw [hstream]
  · exact assocFind_set_self _
      (show (findG f (epName i)).isSome = true by rw [hg]; rfl)
  · exact assocFind_set_self _
      (show (H5Group.findD g "observation").isSome = true by rw [hd]; rfl)
  · exact assocFind_set_ne _ _ (by decide)
  · exact assocFind_set_ne _ _ (by decide)
  · exact assocFind_set_ne _ _ (by decide)
  · exact assocFind_set_ne _ _ (by decide)

/-- Witness for the amended C1 at the concrete file with observation
established at (2,2,3) and a second observation of shape (3,2,3). -/
theorem C1_amended_mismatch_partial_write_witness :
    (findG c1_file (epName 0) = some c1_group ∧
     c1_group.findD "observation" = some c1_obsDset ∧
     c1_obsDset.shape = 1 :: [2, 2, 3] ∧
     (0 : ℕ) ∉ ([2, 2, 3] : List ℕ) ∧
     typeOkData c1_obsDset.dtype obs323.data = true ∧
     broadcastOkB obs323.shape [2, 2, 3] = false) ∧
    (∃ msg d',
      save_step c1_file 0 obs323 act7 "pick" 1 none =
        (setG c1_file (epName 0) (c1_group.setD "observation" d'), some msg) ∧
      d'.shape = (1 + 1) :: [2, 2, 3] ∧
      findG (setG c1_file (epName 0) (c1_group.setD "observation" d'))
        (epName 0) = some (c1_group.setD "observation" d') ∧
      (c1_group.setD "observation" d').findD "observation" = some d' ∧
      (c1_group.setD "observation" d').findD "action" =
        c1_group.findD "action" ∧
      (c1_group.setD "observation" d').findD "reward" =
        c1_group.findD "reward" ∧
      (c1_group.setD "observation" d').findD "instruction" =
        c1_group.findD "instruction" ∧
      (c1_group.setD "observation" d').findD "state" =
        c1_group.findD "state") :=
  ⟨⟨rfl, rfl, rfl, by decide, rfl, rfl⟩,
   C1_amended_mismatch_partial_write c1_file 0 c1_group c1_obsDset obs323 act7
     "pick" 1 none 1 [2, 2, 3] rfl rfl rfl (by decide) rfl rfl⟩
